import Mathlib

/-!
# HA-PI — verification of the configuration / session / light-UI core

Shallow embedding of the state-synchronization and hot-reconfiguration
engine of the HA-PI repository (`src/config.c`, `src/config_server.c`,
`src/light_ui.c`, `src/ha_client.c`).

Strings are modelled as `List Char`; the C NUL terminator is the end of
the list.  File I/O is modelled by passing file *contents* around
(`config_load` takes the JSON text instead of the path, `config_save`
returns the text it would write).  Fixed C buffer sizes
(`entity_id[64]`, `label[32]`, `icon[8]`, `base_url[128]`, `token[512]`,
`web_password_hash[128]`) are not modelled; all concrete inputs used in
the theorems are far below every capacity, so no `snprintf` truncation
can trigger on them.
-/

set_option maxRecDepth 20000

namespace HaPi

/-- Convert a Lean string literal to the `List Char` representation used
throughout the model. -/
def str (s : String) : List Char := s.data

/-! ## JSON scanning primitives (config.c) -/

/-- `config.c` `skip_ws` whitespace test: space, tab, newline, carriage return. -/
def isWsChar (c : Char) : Bool :=
  c == ' ' || c == '\t' || c == '\n' || c == '\r'

/-- `config.c:skip_ws` — skip leading whitespace. -/
def skip_ws : List Char → List Char
  | [] => []
  | c :: t => if isWsChar c then skip_ws t else c :: t

/-- Is `pat` a prefix of `hay`?  (underlying test used by C `strstr`). -/
def hasPfx : List Char → List Char → Bool
  | [], _ => true
  | _ :: _, [] => false
  | a :: p, b :: t => a == b && hasPfx p t

/-- C `strstr`: the suffix of `hay` beginning at the first occurrence of
`pat`, or `none` if `pat` does not occur. -/
def strstrSuf (pat : List Char) : List Char → Option (List Char)
  | [] => if pat.isEmpty then some [] else none
  | c :: t => if hasPfx pat (c :: t) then some (c :: t) else strstrSuf pat t

/-- The value-copy loop of `config.c:json_get_string`: copy until the
closing quote; on a backslash with a successor, skip the backslash and
copy the next character verbatim.  (The `buf_size` bound of the C loop
is not modelled; see the module header.) -/
def readValue : List Char → List Char
  | [] => []
  | '"' :: _ => []
  | '\\' :: c :: rest => c :: readValue rest
  | c :: rest => c :: readValue rest

/-- `config.c:json_get_string` — find `"key"`, expect `:` and an opening
quote after optional whitespace, and copy the quoted value. -/
def json_get_string (json key : List Char) : Option (List Char) :=
  match strstrSuf ('"' :: key ++ ['"']) json with
  | none => none
  | some suf =>
    match skip_ws (suf.drop (key.length + 2)) with
    | ':' :: r =>
      match skip_ws r with
      | '"' :: r2 => some (readValue r2)
      | _ => none
    | _ => none

/-- `config.c:find_lights_array` — locate the `"lights"` key and its
`[`; we return the text *after* the `[` (the caller `config_load` uses
`arr + 1`). -/
def find_lights_array (json : List Char) : Option (List Char) :=
  match strstrSuf (str "\"lights\"") json with
  | none => none
  | some suf =>
    match skip_ws (suf.drop 8) with
    | ':' :: r =>
      match skip_ws r with
      | '[' :: r2 => some r2
      | _ => none
    | _ => none

/-- The brace-matching loop of `config.c:find_next_object`: scan with a
depth counter and an in-string flag (a quote toggles the flag unless
preceded by a backslash).  Returns the object text (braces included) and
the text after the closing brace. -/
def braceScan (prev : Char) (inStr : Bool) (depth : Int) :
    List Char → Option (List Char × List Char)
  | [] => none
  | c :: rest =>
    let inStr2 := if c == '"' && prev != '\\' then !inStr else inStr
    if inStr2 = false ∧ c = '}' then
      if depth = 1 then some ([c], rest)
      else
        match braceScan c inStr2 (depth - 1) rest with
        | none => none
        | some (o, r) => some (c :: o, r)
    else
      let depth2 := if inStr2 = false ∧ c = '{' then depth + 1 else depth
      match braceScan c inStr2 depth2 rest with
      | none => none
      | some (o, r) => some (c :: o, r)

/-- `config.c:find_next_object` — skip whitespace and an optional comma,
require a `{`, and return the balanced object plus the remaining text. -/
def find_next_object (p : List Char) : Option (List Char × List Char) :=
  let p1 := skip_ws p
  let p2 := match p1 with
            | ',' :: r => skip_ws r
            | _ => p1
  match p2 with
  | '{' :: _ => braceScan ' ' false 0 p2
  | _ => none

/-! ## Validation helpers (config.c) -/

/-- C `isalnum` in the default locale, plus underscore — the character
class accepted by `validate_entity_id`. -/
def isIdChar (c : Char) : Bool :=
  c.isAlpha || c.isDigit || c == '_'

/-- `config.c:validate_entity_id` — non-empty `<domain>.<name>` where the
domain is everything before the *first* dot (C `strchr`), both parts are
non-empty and consist of alphanumerics/underscores only. -/
def validate_entity_id (s : List Char) : Bool :=
  let dom := s.takeWhile (fun c => c != '.')
  let rest := s.dropWhile (fun c => c != '.')
  match rest with
  | [] => false
  | _ :: name =>
    !dom.isEmpty && !name.isEmpty && dom.all isIdChar && name.all isIdChar

/-- `config.c:validate_label` — non-empty and at most 31 characters. -/
def validate_label (s : List Char) : Bool :=
  !s.isEmpty && decide (s.length ≤ 31)

/-! ## Configuration aggregate (config.h / ha_client.h / light_ui.h) -/

/-- `light_ui.h:light_config_t`. -/
structure light_config_t where
  entity_id : List Char
  label : List Char
  icon : List Char
deriving DecidableEq, Repr

/-- `ha_client.h:ha_config_t`. -/
structure ha_config_t where
  base_url : List Char
  token : List Char
deriving DecidableEq, Repr

/-- `config.h:config_t`.  The C `light_count` field is `lights.length`
(the fixed-size array holds at most `CONFIG_MAX_LIGHTS = 16` entries;
every constructor in this development produces at most 16). -/
structure config_t where
  ha : ha_config_t
  web_password_hash : List Char
  lights : List light_config_t
deriving DecidableEq, Repr

/-- The per-light body of the `config_load` parsing loop, bounded by
`CONFIG_MAX_LIGHTS = 16` (the `fuel`).  Mirrors `config.c:268-392`:
each object must contain `entity_id`, `label` and `icon`, and
`entity_id`/`label` must validate; otherwise the whole load fails. -/
def loadLights : Nat → List Char → Option (List light_config_t × List Char)
  | 0, p => some ([], p)
  | Nat.succ n, p =>
    match find_next_object p with
    | none => some ([], p)
    | some (obj, rest) =>
      match json_get_string obj (str "entity_id") with
      | none => none
      | some e =>
        match json_get_string obj (str "label") with
        | none => none
        | some l =>
          match json_get_string obj (str "icon") with
          | none => none
          | some ic =>
            if validate_entity_id e && validate_label l then
              match loadLights n rest with
              | none => none
              | some (ls, p2) => some (⟨e, l, ic⟩ :: ls, p2)
            else none

/-- `config.c:config_load`, applied to the *contents* of the file.
`ha_url`, `ha_token` and `web_password_hash` are optional (missing keys
leave the field empty); a missing `lights` array yields zero lights; a
seventeenth light object after 16 parsed ones is an error. -/
def config_load (json : List Char) : Option config_t :=
  let url := (json_get_string json (str "ha_url")).getD []
  let tok := (json_get_string json (str "ha_token")).getD []
  let hash := (json_get_string json (str "web_password_hash")).getD []
  match find_lights_array json with
  | none => some ⟨⟨url, tok⟩, hash, []⟩
  | some arr =>
    match loadLights 16 arr with
    | none => none
    | some (ls, rest) =>
      if ls.length ≥ 16 ∧ (find_next_object rest).isSome then none
      else some ⟨⟨url, tok⟩, hash, ls⟩

/-- One serialized light line of `config.c:config_save`
(`    { "entity_id": "%s", "label": "%s", "icon": "%s" }`). -/
def lightLine (l : light_config_t) : List Char :=
  str "    \x7b \"entity_id\": \"" ++ l.entity_id ++
  str "\", \"label\": \"" ++ l.label ++
  str "\", \"icon\": \"" ++ l.icon ++ str "\" \x7d"

/-- The serialized lights block: a comma after every line except the
last, then a newline (loop body of `config_save`). -/
def lightLines : List light_config_t → List Char
  | [] => []
  | [l] => lightLine l ++ str "\n"
  | l :: ls => lightLine l ++ str ",\n" ++ lightLines ls

/-- `config.c:config_save`, returning the exact file contents the C
code writes with `fprintf` (values are substituted verbatim — the C
code does *not* JSON-escape them). -/
def config_save (cfg : config_t) : List Char :=
  str "\x7b\n  \"ha_url\": \"" ++ cfg.ha.base_url ++
  str "\",\n  \"ha_token\": \"" ++ cfg.ha.token ++
  str "\",\n  \"web_password_hash\": \"" ++ cfg.web_password_hash ++
  str "\",\n  \"lights\": [\n" ++ lightLines cfg.lights ++
  str "  ]\n\x7d\n"

/-! ## Config mutation pipeline (config_server.c / config.c) -/

/-- The `mg_json_get_str` path for a field of light `i`
(`config_server.c:528,534,539`: `$.lights[%d].entity_id` …). -/
def lightPath (i : Nat) (field : String) : String :=
  "$.lights[" ++ toString i ++ "]." ++ field

/-- `config_server.c:json_extract_str` composed with the `> 0` length
test used at every call site in `handle_config_update`: a missing key
*or an empty value* counts as absent.  The request body is abstracted as
the oracle `get` answering `mg_json_get_str` path queries — the handler
interacts with the body only through such queries. -/
def getVal (get : String → Option String) (p : String) : Option (List Char) :=
  match get p with
  | some v => if v.length > 0 then some v.data else none
  | none => none

/-- The lights-extraction loop of `handle_config_update`
(`config_server.c:526-545`): read lights `0, 1, …` while an `entity_id`
is present, stopping at the first missing one and *unconditionally* at
`CONFIG_MAX_LIGHTS = 16` (the fuel); `label`/`icon` default to empty.
No validation is performed here. -/
def extractLights (get : String → Option String) : Nat → Nat → List light_config_t
  | _, 0 => []
  | i, Nat.succ fuel =>
    match getVal get (lightPath i "entity_id") with
    | none => []
    | some e =>
      let l := (getVal get (lightPath i "label")).getD []
      let ic := (getVal get (lightPath i "icon")).getD []
      ⟨e, l, ic⟩ :: extractLights get (i + 1) fuel

/-- The aggregate built by `handle_config_update`
(`config_server.c:511-546`) from the request body and the current
config: the `web_password_hash` is copied from the current config (it is
not editable via the web API), all other fields come from the body. -/
def buildNewConfig (get : String → Option String) (old : config_t) : config_t :=
  { ha := { base_url := (getVal get "$.ha_url").getD []
            token := (getVal get "$.ha_token").getD [] }
    web_password_hash := old.web_password_hash
    lights := extractLights get 0 16 }

/-- Observable actions `handle_config_update` performs on the web-server
worker thread.  `enqueueReload` is the hand-off-channel message the spec
prescribes; it is included so its absence can be stated — no code path
of the repository produces it. -/
inductive SrvEffect where
  | saveFile : List Char → SrvEffect
  | uiDestroy : SrvEffect
  | uiInit : List light_config_t → SrvEffect
  | enqueueReload : config_t → SrvEffect
deriving DecidableEq, Repr

/-- Is this effect a hand-off-channel enqueue? -/
def SrvEffect.isEnqueue : SrvEffect → Bool
  | .enqueueReload _ => true
  | _ => false

/-- `config.c:config_reload`, applied to the current file contents: on a
successful re-load it destroys and re-creates the light UI
(`light_ui_destroy` / `light_ui_init`, called directly by the caller's
thread) and installs the new config; on failure the current config and
UI stay untouched. -/
def config_reload (file : List Char) : Option config_t × List SrvEffect :=
  match config_load file with
  | none => (none, [])
  | some c => (some c, [SrvEffect.uiDestroy, SrvEffect.uiInit c.lights])

/-- Result of one `POST /api/config` round through
`config_server.c:handle_config_update`. -/
structure UpdateOutcome where
  result : Int
  fileAfter : List Char
  memAfter : config_t
  effects : List SrvEffect
deriving Repr

/-- `config_server.c:handle_config_update` (lines 502-567): build the new
aggregate from the body, **write it to the config file first**
(`config_save`), then `config_reload()`; on reload success the server's
config pointer is refreshed from `config_get_current()`.  `config_save`
is modelled as succeeding (it only fails when `fopen` fails).  All
effects happen on the web-server worker thread. -/
def handle_config_update (get : String → Option String) (old : config_t) :
    UpdateOutcome :=
  let newCfg := buildNewConfig get old
  let file := config_save newCfg
  match config_reload file with
  | (some c, effs) => ⟨0, file, c, SrvEffect.saveFile file :: effs⟩
  | (none, effs) => ⟨-1, file, old, SrvEffect.saveFile file :: effs⟩

/-! ## Sessions and authentication (config_server.c) -/

/-- `config_server.c:session_t` — `last_active = 0` marks an unused
slot.  `time_t` is modelled as `Nat`; the C comparison
`now - last_active > 3600` on non-negative clocks coincides with
truncated `Nat` subtraction. -/
structure session_t where
  token : List Char
  last_active : Nat
deriving DecidableEq, Repr

/-- `config_server.c:SESSION_TIMEOUT_SEC`. -/
def SESSION_TIMEOUT_SEC : Nat := 3600

/-- The scan loop of `config_server.c:session_validate` (lines 147-163)
over the slot array: unused slots are skipped, a slot found expired is
evicted (token cleared, `last_active := 0`) and the scan continues, the
first live slot with a matching token is refreshed to `now` and the scan
stops with success. -/
def session_scan (token : List Char) (now : Nat) :
    List session_t → Bool × List session_t
  | [] => (false, [])
  | s :: rest =>
    if s.last_active = 0 then
      ((session_scan token now rest).1, s :: (session_scan token now rest).2)
    else if now - s.last_active > SESSION_TIMEOUT_SEC then
      ((session_scan token now rest).1, ⟨[], 0⟩ :: (session_scan token now rest).2)
    else if s.token = token then
      (true, ⟨s.token, now⟩ :: rest)
    else
      ((session_scan token now rest).1, s :: (session_scan token now rest).2)

/-- `config_server.c:session_validate` (lines 136-167): an empty token is
rejected without touching the table, otherwise the slots are scanned.
Returns the result and the table after the call. -/
def session_validate (token : List Char) (now : Nat) (tbl : List session_t) :
    Bool × List session_t :=
  if token.isEmpty then (false, tbl) else session_scan token now tbl

/-- `config_server.c:verify_password` (lines 230-244): a `none` (NULL) or
empty stored hash is rejected before `crypt_r` is consulted; otherwise
the password is hashed with the stored hash as salt (`crypt` oracle,
`none` = `crypt_r` failure) and compared against the stored hash. -/
def verify_password (crypt : List Char → List Char → Option (List Char))
    (password : List Char) (hash : Option (List Char)) : Bool :=
  match hash with
  | none => false
  | some h =>
    if h.isEmpty then false
    else
      match crypt password h with
      | none => false
      | some r => r = h

/-- HTTP method of a request, as compared by `ev_handler`. -/
inductive Method where
  | GET
  | POST
  | OTHER
deriving DecidableEq, Repr

/-- The response classes `config_server.c:ev_handler` can produce.
`logoutOk` is the 200 `{"ok":true}` JSON body; `redirectHome` is the
302 to `/` issued by the authentication gate; `loginSuccess` is the 302
to `/settings` carrying the fresh session cookie. -/
inductive Response where
  | loginForm
  | loginFailed
  | loginServerError
  | loginSuccess
  | redirectSettings
  | redirectHome
  | logoutOk
  | settingsPage
  | configJson
  | updateSuccess
  | updateFailure
  | notFound
deriving DecidableEq, Repr

/-- `config_server.c:ev_handler` (lines 573-672), routing one HTTP
message.  `auth` abstracts the result of `is_authenticated` (session
cookie lookup), `sessionCreateOk` the result of `session_create`, and
`updateOk` the result of `handle_config_update`.  Branches appear in
source order; note that `POST /logout` is matched *before* the
authentication gate at line 635. -/
def ev_handler (crypt : List Char → List Char → Option (List Char))
    (storedHash : List Char) (password : List Char) (auth : Bool)
    (sessionCreateOk : Bool) (updateOk : Bool)
    (m : Method) (uri : String) : Response :=
  if uri = "/" ∧ m = Method.GET then
    (if auth then Response.redirectSettings else Response.loginForm)
  else if uri = "/login" ∧ m = Method.POST then
    (if verify_password crypt password (some storedHash) then
       (if sessionCreateOk then Response.loginSuccess
        else Response.loginServerError)
     else Response.loginFailed)
  else if uri = "/logout" ∧ m = Method.POST then Response.logoutOk
  else if auth = false then Response.redirectHome
  else if uri = "/settings" ∧ m = Method.GET then Response.settingsPage
  else if uri = "/api/config" ∧ m = Method.GET then Response.configJson
  else if uri = "/api/config" ∧ m = Method.POST then
    (if updateOk then Response.updateSuccess else Response.updateFailure)
  else Response.notFound

/-! ## Light tile UI (light_ui.c) -/

/-- `light_ui.h:light_state_t`. -/
inductive light_state_t where
  | UNKNOWN
  | OFF
  | ON
deriving DecidableEq, Repr

/-- The opposite-state computation of `light_ui.c:tile_click_cb`
(lines 230-237): ON → OFF, OFF → ON, UNKNOWN → ON. -/
def toggleNext : light_state_t → light_state_t
  | light_state_t.ON => light_state_t.OFF
  | light_state_t.OFF => light_state_t.ON
  | light_state_t.UNKNOWN => light_state_t.ON

/-- `light_ui.c:tile_click_cb` (lines 222-247) acting on the per-tile
optimistic states: an out-of-range index is ignored; otherwise the tile's
optimistic state is flipped to `toggleNext` of its current value and the
registered toggle callback receives the *pre-tap* value (second
component; `none` = callback not invoked). -/
def tile_click_cb (opts : List light_state_t) (i : Nat) :
    List light_state_t × Option light_state_t :=
  if h : i < opts.length then
    (opts.set i (toggleNext (opts.get ⟨i, h⟩)), some (opts.get ⟨i, h⟩))
  else (opts, none)

/-- `light_ui.h:LIGHT_MAX_COUNT`. -/
def LIGHT_MAX_COUNT : Int := 16

/-- The count clamp at the top of `light_ui.c:light_ui_init`
(lines 379-381): clamp above to `LIGHT_MAX_COUNT`, then below to 0. -/
def light_ui_clamp (count : Int) : Int :=
  let c1 := if count > LIGHT_MAX_COUNT then LIGHT_MAX_COUNT else count
  if c1 < 0 then 0 else c1

/-- `page_count` as computed by `light_ui_init` (lines 384-385):
`(count + LIGHT_PER_PAGE - 1) / LIGHT_PER_PAGE` with `LIGHT_PER_PAGE =
4`, forced to at least one page.  The clamped count is non-negative, so
C `int` division agrees with `Nat` division. -/
def light_ui_page_count (count : Int) : Nat :=
  let p := ((light_ui_clamp count).toNat + 4 - 1) / 4
  if p = 0 then 1 else p

/-- The set of tile indices touched by the tile-creation loops of
`light_ui_init` (lines 417-429): for every page `p` and slot `slot`,
index `p * 4 + slot` is used iff it is below the clamped light count. -/
def light_ui_accessed (count : Int) : List Nat :=
  (List.range (light_ui_page_count count)).flatMap fun p =>
    (List.range 4).filterMap fun slot =>
      let idx := p * 4 + slot
      if idx < (light_ui_clamp count).toNat then some idx else none

/-! ## Concrete instances used by the theorems -/

/-- A valid running aggregate: one light, a configured password hash. -/
def cfg0 : config_t :=
  ⟨⟨str "http://old", str "tokold"⟩, str "$2b$10$abc",
   [⟨str "light.old", str "Old", str "bulb"⟩]⟩

/-- Body oracle of a well-formed `POST /api/config` request carrying one
valid light. -/
def body1 : String → Option String := fun p =>
  if p = "$.ha_url" then some "http://ha.local"
  else if p = lightPath 0 "entity_id" then some "light.kitchen"
  else if p = lightPath 0 "label" then some "Kitchen"
  else if p = lightPath 0 "icon" then some "bulb"
  else none

/-- Body oracle of a `POST /api/config` request whose single light has
the malformed entity id `nodot` (no `<domain>.<name>` dot). -/
def badBody : String → Option String := fun p =>
  if p = lightPath 0 "entity_id" then some "nodot"
  else if p = lightPath 0 "label" then some "X"
  else if p = lightPath 0 "icon" then some "b"
  else none

/-- Body oracle of a `POST /api/config` request carrying 17 individually
valid lights (`light.l0` … `light.l16`). -/
def body17 : String → Option String := fun p =>
  ((List.range 17).flatMap fun i =>
    [(lightPath i "entity_id", "light.l" ++ toString i),
     (lightPath i "label", "L" ++ toString i),
     (lightPath i "icon", "b")]).lookup p

/-- Body oracle of a `POST /api/config` request whose `ha_url` value
injects a `web_password_hash` key: `config_save` writes the value
verbatim (no JSON escaping), so the saved file gains a second
`web_password_hash` key *before* the genuine one, and `config_load`'s
`strstr`-based key lookup picks the injected one on reload.  The 29
characters fit the C `base_url[128]` buffer (as would a full 60-char
bcrypt hash). -/
def evilBody : String → Option String := fun p =>
  if p = "$.ha_url" then some "u\", \"web_password_hash\": \"EVIL"
  else none

/-- A fully valid aggregate (16-light bound, entity-id format, label
length all satisfied) whose `ha_url` happens to be the string
`lights`. -/
def A5 : config_t :=
  ⟨⟨str "lights", []⟩, [], [⟨str "light.kitchen", str "Kitchen", str "bulb"⟩]⟩

/-! ## Claim theorems -/

/-- C1: an accepted `POST /api/config` never travels through a hand-off
channel — `handle_config_update` emits no `enqueueReload` effect for any
request body and any current config (no code path of the repository
produces one), and on the accepted request `body1` it instead performs
the direct render-surface mutation `light_ui_destroy` (via
`config_reload`) on the web-server worker thread.  This refutes the
claim that the registry is only influenced by enqueuing a
`ReloadRequest`. -/
theorem C1_update_bypasses_handoff :
    (∀ get old,
      ((handle_config_update get old).effects.all fun e => !e.isEnqueue) = true)
    ∧ (handle_config_update body1 cfg0).result = 0
    ∧ ((handle_config_update body1 cfg0).effects.contains SrvEffect.uiDestroy)
        = true := by
  refine ⟨fun get old => ?_, by decide, by decide⟩
  unfold handle_config_update config_reload
  cases h : config_load (config_save (buildNewConfig get old)) <;>
    simp [h, SrvEffect.isEnqueue]

/-- C2: hot reload is not atomic — on the request `badBody` (malformed
entity id) `handle_config_update` first persists the new aggregate to
the config file and only then fails the reload, leaving the file with
the new aggregate while the running system keeps `cfg0`; the persisted
file no longer loads at all (the next startup would fail). -/
theorem C2_persists_unapplied_aggregate :
    (handle_config_update badBody cfg0).result = -1
    ∧ (handle_config_update badBody cfg0).memAfter = cfg0
    ∧ (handle_config_update badBody cfg0).fileAfter
        = config_save (buildNewConfig badBody cfg0)
    ∧ decide (buildNewConfig badBody cfg0 = cfg0) = false
    ∧ decide ((handle_config_update badBody cfg0).fileAfter = config_save cfg0)
        = false
    ∧ (config_load (handle_config_update badBody cfg0).fileAfter).isSome
        = false := by
  decide

/-- C3: `POST /api/config` with 17 lights is not rejected — the
extraction loop of `handle_config_update` silently truncates the body to
the first 16 lights, persists them, reloads successfully (result 0, the
route then answers 200), and the stored file changes; no
`ValidationError` occurs and a reload is performed. -/
theorem C3_seventeen_lights_truncated_not_rejected :
    (buildNewConfig body17 cfg0).lights.length = 16
    ∧ (handle_config_update body17 cfg0).result = 0
    ∧ (handle_config_update body17 cfg0).memAfter.lights.length = 16
    ∧ decide ((handle_config_update body17 cfg0).fileAfter = config_save cfg0)
        = false := by
  decide

/-- C4: `POST /logout` is matched before the authentication gate of
`ev_handler`: with no valid session (`auth = false`) the logout handler
still runs and answers 200 with a JSON body (`logoutOk`), which is not
the redirect/challenge the claim requires for unauthenticated access. -/
theorem C4_logout_handled_without_session :
    (∀ crypt hash pw sOk uOk,
      ev_handler crypt hash pw false sOk uOk Method.POST "/logout"
        = Response.logoutOk)
    ∧ decide (Response.logoutOk = Response.redirectHome) = false := by
  exact ⟨fun crypt hash pw sOk uOk => rfl, by decide⟩

/-- C5: the save/load round trip fails on the valid aggregate `A5`
(one well-formed light, label within bounds, `ha_url = "lights"`):
`config_load` finds the first occurrence of `"lights"` inside the
`ha_url` *value* of the saved file, concludes there is no lights array,
and returns an aggregate with 0 lights instead of the original one. -/
theorem C5_roundtrip_fails_on_valid_aggregate :
    (decide (A5.lights.length ≤ 16)
      && A5.lights.all (fun l => validate_entity_id l.entity_id
            && validate_label l.label)) = true
    ∧ (config_load (config_save A5)).map (fun c => c.lights.length) = some 0
    ∧ decide (config_load (config_save A5) = some A5) = false := by
  decide

/-- Behaviour of the `session_validate` scan loop: success exactly on a
live, unexpired, token-matching slot; a successful lookup leaves a slot
refreshed to `now`; a failed lookup leaves no expired live slot behind
(lazy eviction). -/
theorem session_scan_spec (t : List Char) (now : Nat) (tbl : List session_t) :
    ((session_scan t now tbl).1 = true ↔
      ∃ s ∈ tbl, s.last_active ≠ 0
        ∧ now - s.last_active ≤ SESSION_TIMEOUT_SEC ∧ s.token = t)
    ∧ ((session_scan t now tbl).1 = true →
        ∃ s ∈ (session_scan t now tbl).2, s.token = t ∧ s.last_active = now)
    ∧ ((session_scan t now tbl).1 = false →
        ∀ s ∈ (session_scan t now tbl).2,
          s.last_active = 0 ∨ now - s.last_active ≤ SESSION_TIMEOUT_SEC) := by
  induction tbl with
  | nil => simp [session_scan]
  | cons s rest ih =>
    obtain ⟨ih1, ih2, ih3⟩ := ih
    by_cases h0 : s.last_active = 0
    · simp only [session_scan, if_pos h0]
      refine ⟨?_, ?_, ?_⟩
      · simp [ih1, h0]
      · intro hb
        obtain ⟨x, hx, hxt⟩ := ih2 hb
        exact ⟨x, List.mem_cons_of_mem _ hx, hxt⟩
      · intro hb x hx
        rcases List.mem_cons.mp hx with rfl | hx'
        · exact Or.inl h0
        · exact ih3 hb x hx'
    · by_cases hexp : now - s.last_active > SESSION_TIMEOUT_SEC
      · simp only [session_scan, if_neg h0, if_pos hexp]
        refine ⟨?_, ?_, ?_⟩
        · rw [ih1]
          constructor
          · rintro ⟨x, hx, hxp⟩
            exact ⟨x, List.mem_cons_of_mem _ hx, hxp⟩
          · rintro ⟨x, hx, hxp⟩
            rcases List.mem_cons.mp hx with rfl | hx'
            · omega
            · exact ⟨x, hx', hxp⟩
        · intro hb
          obtain ⟨x, hx, hxt⟩ := ih2 hb
          exact ⟨x, List.mem_cons_of_mem _ hx, hxt⟩
        · intro hb x hx
          rcases List.mem_cons.mp hx with rfl | hx'
          · exact Or.inl rfl
          · exact ih3 hb x hx'
      · by_cases htok : s.token = t
        · simp only [session_scan, if_neg h0, if_neg hexp, if_pos htok]
          refine ⟨?_, ?_, ?_⟩
          · simp only [true_iff]
            exact ⟨s, List.mem_cons_self .., h0, by omega, htok⟩
          · intro _
            exact ⟨⟨s.token, now⟩, List.mem_cons_self .., htok, rfl⟩
          · intro hb
            cases hb
        · simp only [session_scan, if_neg h0, if_neg hexp, if_neg htok]
          refine ⟨?_, ?_, ?_⟩
          · rw [ih1]
            constructor
            · rintro ⟨x, hx, hxp⟩
              exact ⟨x, List.mem_cons_of_mem _ hx, hxp⟩
            · rintro ⟨x, hx, hxp⟩
              rcases List.mem_cons.mp hx with rfl | hx'
              · exact absurd hxp.2.2 htok
              · exact ⟨x, hx', hxp⟩
          · intro hb
            obtain ⟨x, hx, hxt⟩ := ih2 hb
            exact ⟨x, List.mem_cons_of_mem _ hx, hxt⟩
          · intro hb x hx
            rcases List.mem_cons.mp hx with rfl | hx'
            · right; omega
            · exact ih3 hb x hx'

/-- C6: for a non-empty token, `session_validate` succeeds exactly when a
live session with that token exists whose `last_active` is within the
1-hour window (`now - last_active ≤ 3600`); success refreshes the
matched slot's `last_active` to `now`; on failure every slot left in the
table is either free (`last_active = 0`, reusable) or unexpired — in
particular a session idle for 61 minutes fails validation and its slot
is freed. -/
theorem C6_session_validate_spec (t : List Char) (now : Nat)
    (tbl : List session_t) (ht : t.isEmpty = false) :
    ((session_validate t now tbl).1 = true ↔
      ∃ s ∈ tbl, s.last_active ≠ 0
        ∧ now - s.last_active ≤ SESSION_TIMEOUT_SEC ∧ s.token = t)
    ∧ ((session_validate t now tbl).1 = true →
        ∃ s ∈ (session_validate t now tbl).2, s.token = t ∧ s.last_active = now)
    ∧ ((session_validate t now tbl).1 = false →
        ∀ s ∈ (session_validate t now tbl).2,
          s.last_active = 0 ∨ now - s.last_active ≤ SESSION_TIMEOUT_SEC) := by
  unfold session_validate
  rw [ht]
  simpa using session_scan_spec t now tbl

/-- C6 witness: a session created at time 10 and validated at time 50 is
accepted and refreshed to 50; the same token checked 3661 seconds after
its last activity (61 minutes) is rejected and its slot is freed. -/
theorem C6_session_validate_spec_witness :
    (session_validate (str "tok") 50 [⟨str "tok", 10⟩]).1 = true
    ∧ (∃ s ∈ (session_validate (str "tok") 50 [⟨str "tok", 10⟩]).2,
        s.token = str "tok" ∧ s.last_active = 50)
    ∧ (session_validate (str "tok") 3662 [⟨str "tok", 1⟩]).1 = false
    ∧ (∀ s ∈ (session_validate (str "tok") 3662 [⟨str "tok", 1⟩]).2,
        s.last_active = 0 ∨ 3662 - s.last_active ≤ SESSION_TIMEOUT_SEC) := by
  have h1 := C6_session_validate_spec (str "tok") 50 [⟨str "tok", 10⟩] (by decide)
  have h2 := C6_session_validate_spec (str "tok") 3662 [⟨str "tok", 1⟩] (by decide)
  refine ⟨by decide, h1.2.1 (by decide), by decide, h2.2.2 (by decide)⟩

/-- C7: tapping tile `i` flips its optimistic state — ON becomes OFF,
OFF becomes ON, UNKNOWN becomes ON — and the registered toggle callback
receives the pre-tap optimistic value. -/
theorem C7_tile_click_flips_and_reports_pretap
    (opts : List light_state_t) (i : Nat) (h : i < opts.length) :
    tile_click_cb opts i
      = (opts.set i (toggleNext (opts.get ⟨i, h⟩)), some (opts.get ⟨i, h⟩))
    ∧ (opts.get ⟨i, h⟩ = light_state_t.ON →
        toggleNext (opts.get ⟨i, h⟩) = light_state_t.OFF)
    ∧ (opts.get ⟨i, h⟩ = light_state_t.OFF →
        toggleNext (opts.get ⟨i, h⟩) = light_state_t.ON)
    ∧ (opts.get ⟨i, h⟩ = light_state_t.UNKNOWN →
        toggleNext (opts.get ⟨i, h⟩) = light_state_t.ON) := by
  refine ⟨by simp [tile_click_cb, h], ?_, ?_, ?_⟩ <;>
    (intro hc; rw [hc]; rfl)

/-- C7 witness: tapping the first tile of `[ON, OFF]` yields
`[OFF, OFF]` and reports the pre-tap value `ON`. -/
theorem C7_tile_click_flips_and_reports_pretap_witness :
    tile_click_cb [light_state_t.ON, light_state_t.OFF] 0
      = ([light_state_t.OFF, light_state_t.OFF], some light_state_t.ON) := by
  have h := C7_tile_click_flips_and_reports_pretap
    [light_state_t.ON, light_state_t.OFF] 0 (by decide)
  rw [h.1]; rfl

/-- C8: the password hash *can* be altered through `POST /api/config`,
refuting the claim.  `handle_config_update` does copy the old hash into
the aggregate it builds (config_server.c:514, second conjunct), but on
the request `evilBody` — whose `ha_url` value injects a
`web_password_hash` key — the unescaped `config_save` output makes the
reload parse the injected key first: the update is accepted (result 0,
the route answers 200) and the running config's hash becomes the
body-controlled string `EVIL`, no longer the hash of `cfg0`; every
later `config_load` of the persisted file yields `EVIL` too. -/
theorem C8_hash_alterable_by_injection :
    (buildNewConfig evilBody cfg0).web_password_hash = cfg0.web_password_hash
    ∧ (handle_config_update evilBody cfg0).result = 0
    ∧ (handle_config_update evilBody cfg0).memAfter.web_password_hash
        = str "EVIL"
    ∧ decide ((handle_config_update evilBody cfg0).memAfter.web_password_hash
        = cfg0.web_password_hash) = false
    ∧ (config_load (handle_config_update evilBody cfg0).fileAfter).map
        (fun c => c.web_password_hash) = some (str "EVIL") := by
  decide

/-- C9: `verify_password` rejects every password when the stored hash is
NULL or the empty string (the `crypt` oracle is never consulted), so on
a device with no configured password `POST /login` always answers the
failure page and never creates a session. -/
theorem C9_empty_hash_never_authenticates
    (crypt : List Char → List Char → Option (List Char))
    (pw : List Char) (auth sOk uOk : Bool) :
    verify_password crypt pw none = false
    ∧ verify_password crypt pw (some []) = false
    ∧ ev_handler crypt [] pw auth sOk uOk Method.POST "/login"
        = Response.loginFailed := by
  exact ⟨rfl, rfl, rfl⟩

/-- C10: `light_ui_init` clamps its count to `min (max count 0) 16`,
produces between 1 and 4 pages, and every tile index touched by its
creation loops is below the clamped count and hence below 16. -/
theorem C10_light_ui_init_clamps (count : Int) :
    light_ui_clamp count = min (max count 0) 16
    ∧ 1 ≤ light_ui_page_count count
    ∧ light_ui_page_count count ≤ 4
    ∧ ∀ i ∈ light_ui_accessed count,
        i < (light_ui_clamp count).toNat ∧ i < 16 := by
  have hcl : light_ui_clamp count = min (max count 0) 16 := by
    simp only [light_ui_clamp, LIGHT_MAX_COUNT]
    split_ifs <;> omega
  have hle : (light_ui_clamp count).toNat ≤ 16 := by
    rw [hcl]; omega
  refine ⟨hcl, ?_, ?_, ?_⟩
  · simp only [light_ui_page_count]
    split_ifs with h
    · exact le_refl 1
    · omega
  · simp only [light_ui_page_count]
    have h19 : (light_ui_clamp count).toNat + 4 - 1 ≤ 19 := by omega
    have hdiv : ((light_ui_clamp count).toNat + 4 - 1) / 4 ≤ 4 := by
      calc ((light_ui_clamp count).toNat + 4 - 1) / 4
          ≤ 19 / 4 := Nat.div_le_div_right h19
        _ = 4 := rfl
    split_ifs with h
    · norm_num
    · exact hdiv
  · intro i hi
    simp only [light_ui_accessed, List.mem_flatMap, List.mem_filterMap,
      List.mem_range] at hi
    obtain ⟨p, _, slot, _, hslot⟩ := hi
    by_cases hidx : p * 4 + slot < (light_ui_clamp count).toNat
    · rw [if_pos hidx] at hslot
      cases hslot
      exact ⟨hidx, by omega⟩
    · rw [if_neg hidx] at hslot
      cases hslot

/-- C10 witness: with `count = 20` the clamp yields 16, there are 4
pages, and the accessed index 3 is below the clamp and below 16. -/
theorem C10_light_ui_init_clamps_witness :
    light_ui_clamp 20 = 16
    ∧ 1 ≤ light_ui_page_count 20 ∧ light_ui_page_count 20 ≤ 4
    ∧ (3 < (light_ui_clamp 20).toNat ∧ 3 < 16) := by
  have h := C10_light_ui_init_clamps 20
  exact ⟨h.1.trans (by decide), h.2.1, h.2.2.1, h.2.2.2 3 (by decide)⟩

end HaPi
